import Mathlib

/-!
Verification of the ChunkHound Python benchmark harness
(`python-deps/benchmark_parsers.py`) against its specification.

The script is embedded shallowly:
* `md5`, `hexdigest` — the `hashlib.md5(...).hexdigest()` call used by the
  "fake" embedding provider, implemented over byte lists with `Nat`
  arithmetic mod 2^32;
* `benchmark_file_parsing`, `benchmark_embedding` — the two measurement
  functions, with the external collaborators (parser construction, file
  reads) passed in as explicit `Except`-valued environments and the
  `time.time()` samples passed in as a rational elapsed duration;
* `main_run` — the driver, as a fold over the declared `(file, parser)`
  pairs threading the accumulated records, collected texts and printed
  lines;
* a JSON AST with encoders mirroring the Python dict layouts handed to
  `json.dump`, and decoders for the round-trip property.

Python floats are modelled as `ℚ`; a Python `dict`'s optional keys as
`Option` fields whose presence the JSON encoding makes explicit.
-/

namespace ChunkHoundBench

/-! ### Bytes of a text, as `text.encode()` produces them (UTF-8) -/

/-- UTF-8 encoding of a single code point, as `str.encode()` emits it. -/
def utf8Bytes (c : ℕ) : List ℕ :=
  if c < 0x80 then [c]
  else if c < 0x800 then
    [0xC0 ||| (c >>> 6), 0x80 ||| (c &&& 0x3F)]
  else if c < 0x10000 then
    [0xE0 ||| (c >>> 12), 0x80 ||| ((c >>> 6) &&& 0x3F), 0x80 ||| (c &&& 0x3F)]
  else
    [0xF0 ||| (c >>> 18), 0x80 ||| ((c >>> 12) &&& 0x3F),
     0x80 ||| ((c >>> 6) &&& 0x3F), 0x80 ||| (c &&& 0x3F)]

/-- The byte sequence `text.encode()` of a Python string. -/
def strBytes (s : String) : List ℕ :=
  s.data.foldr (fun ch acc => utf8Bytes ch.toNat ++ acc) []

/-! ### MD5 (`hashlib.md5`), over byte lists, `Nat` arithmetic mod 2^32 -/

/-- The 64 round constants `K[i] = floor(2^32 * |sin(i+1)|)` of MD5. -/
def md5K : List ℕ :=
  [0xd76aa478, 0xe8c7b756, 0x242070db, 0xc1bdceee,
   0xf57c0faf, 0x4787c62a, 0xa8304613, 0xfd469501,
   0x698098d8, 0x8b44f7af, 0xffff5bb1, 0x895cd7be,
   0x6b901122, 0xfd987193, 0xa679438e, 0x49b40821,
   0xf61e2562, 0xc040b340, 0x265e5a51, 0xe9b6c7aa,
   0xd62f105d, 0x02441453, 0xd8a1e681, 0xe7d3fbc8,
   0x21e1cde6, 0xc33707d6, 0xf4d50d87, 0x455a14ed,
   0xa9e3e905, 0xfcefa3f8, 0x676f02d9, 0x8d2a4c8a,
   0xfffa3942, 0x8771f681, 0x6d9d6122, 0xfde5380c,
   0xa4beea44, 0x4bdecfa9, 0xf6bb4b60, 0xbebfbc70,
   0x289b7ec6, 0xeaa127fa, 0xd4ef3085, 0x04881d05,
   0xd9d4d039, 0xe6db99e5, 0x1fa27cf8, 0xc4ac5665,
   0xf4292244, 0x432aff97, 0xab9423a7, 0xfc93a039,
   0x655b59c3, 0x8f0ccc92, 0xffeff47d, 0x85845dd1,
   0x6fa87e4f, 0xfe2ce6e0, 0xa3014314, 0x4e0811a1,
   0xf7537e82, 0xbd3af235, 0x2ad7d2bb, 0xeb86d391]

/-- The per-round left-rotation amounts of MD5. -/
def md5S : List ℕ :=
  [7, 12, 17, 22, 7, 12, 17, 22, 7, 12, 17, 22, 7, 12, 17, 22,
   5, 9, 14, 20, 5, 9, 14, 20, 5, 9, 14, 20, 5, 9, 14, 20,
   4, 11, 16, 23, 4, 11, 16, 23, 4, 11, 16, 23, 4, 11, 16, 23,
   6, 10, 15, 21, 6, 10, 15, 21, 6, 10, 15, 21, 6, 10, 15, 21]

/-- Bitwise complement on 32-bit words represented as `Nat`. -/
def not32 (a : ℕ) : ℕ := a ^^^ 0xffffffff

/-- Left rotation of a 32-bit word. -/
def rotl32 (x s : ℕ) : ℕ := ((x <<< s) ||| (x >>> (32 - s))) % 4294967296

/-- The sixteen little-endian 32-bit message words of one 64-byte block. -/
def wordsOfBlock (block : List ℕ) : List ℕ :=
  (List.range 16).map (fun j =>
    block.getD (4 * j) 0 + 256 * block.getD (4 * j + 1) 0 +
    65536 * block.getD (4 * j + 2) 0 + 16777216 * block.getD (4 * j + 3) 0)

/-- One of the 64 MD5 rounds, acting on the running state `(A, B, C, D)`. -/
def md5Round (M : List ℕ) (st : ℕ × ℕ × ℕ × ℕ) (i : ℕ) : ℕ × ℕ × ℕ × ℕ :=
  let (A, B, C, D) := st
  let Fg : ℕ × ℕ :=
    if i < 16 then ((B &&& C) ||| (not32 B &&& D), i)
    else if i < 32 then ((D &&& B) ||| (not32 D &&& C), (5 * i + 1) % 16)
    else if i < 48 then (B ^^^ C ^^^ D, (3 * i + 5) % 16)
    else (C ^^^ (B ||| not32 D), (7 * i) % 16)
  let F := (Fg.1 + A + md5K.getD i 0 + M.getD Fg.2 0) % 4294967296
  (D, (B + rotl32 F (md5S.getD i 0)) % 4294967296, B, C)

/-- Compression of one 64-byte block into the chaining state. -/
def md5Block (st : ℕ × ℕ × ℕ × ℕ) (block : List ℕ) : ℕ × ℕ × ℕ × ℕ :=
  let M := wordsOfBlock block
  let r := (List.range 64).foldl (md5Round M) st
  ((st.1 + r.1) % 4294967296, (st.2.1 + r.2.1) % 4294967296,
   (st.2.2.1 + r.2.2.1) % 4294967296, (st.2.2.2 + r.2.2.2) % 4294967296)

/-- The eight little-endian bytes of the 64-bit message bit length. -/
def le64 (n : ℕ) : List ℕ := (List.range 8).map (fun j => (n >>> (8 * j)) % 256)

/-- The four little-endian bytes of a 32-bit word. -/
def le32bytes (n : ℕ) : List ℕ := (List.range 4).map (fun j => (n >>> (8 * j)) % 256)

/-- MD5 padding: `0x80`, zeros to 56 mod 64, then the bit length. -/
def md5Pad (msg : List ℕ) : List ℕ :=
  msg ++ [0x80] ++ List.replicate ((119 - msg.length % 64) % 64) 0 ++
    le64 ((8 * msg.length) % 18446744073709551616)

/-- The padded message cut into its 64-byte blocks. -/
def md5Blocks (padded : List ℕ) : List (List ℕ) :=
  (List.range (padded.length / 64)).map (fun i => (padded.drop (64 * i)).take 64)

/-- The 16-byte MD5 digest of a byte sequence. -/
def md5 (msg : List ℕ) : List ℕ :=
  let r := (md5Blocks (md5Pad msg)).foldl md5Block
    (0x67452301, 0xefcdab89, 0x98badcfe, 0x10325476)
  le32bytes r.1 ++ le32bytes r.2.1 ++ le32bytes r.2.2.1 ++ le32bytes r.2.2.2

/-- The lowercase hex character of a value below 16. -/
def hexDigit (n : ℕ) : Char := if n < 10 then Char.ofNat (48 + n) else Char.ofNat (87 + n)

/-- `hash_obj.hexdigest()`: the digest bytes rendered as lowercase hex. -/
def hexdigest (bytes : List ℕ) : String :=
  ⟨bytes.foldr (fun b acc => hexDigit (b / 16) :: hexDigit (b % 16) :: acc) []⟩

/-- The numeric value of one lowercase hex character. -/
def hexVal (c : Char) : ℕ := if 97 ≤ c.toNat then c.toNat - 87 else c.toNat - 48

/-- `int(s[i:i+2], 16)` on the hex digest string. -/
def parseHexPair (s : List Char) (i : ℕ) : ℕ :=
  16 * hexVal (s.getD i '0') + hexVal (s.getD (i + 1) '0')

/-- The "fake" provider's vector for one text:
`[int(hash_obj.hexdigest()[i:i+2], 16) / 255.0 for i in range(0, 32, 2)]`. -/
def fakeEmbedding (text : String) : List ℚ :=
  let hex := (hexdigest (md5 (strBytes text))).data
  ((List.range 16).map (fun k => 2 * k)).map
    (fun i => (parseHexPair hex i : ℚ) / 255)

/-! ### Data model: the dicts returned by the two measurement functions.

A Python dict's optional keys (`chunk_count` etc. present only on success,
`error` only on failure) become `Option` fields; the JSON encoders below
emit a key exactly when its field is `some`. -/

/-- A chunk as the parsers return it: exposes its text `content`. -/
structure Chunk where
  content : String
deriving DecidableEq, Repr

/-- The dict returned by `benchmark_file_parsing`. -/
structure BenchmarkRecord where
  file : String
  parser : String
  parse_time_ms : ℚ
  chunk_count : Option ℕ
  total_chunk_size : Option ℕ
  avg_chunk_size : Option ℚ
  error : Option String
  success : Bool
deriving DecidableEq, Repr

/-- The dict returned by `benchmark_embedding`. -/
structure EmbeddingRecord where
  embedding_provider : String
  text_count : ℕ
  embed_time_ms : ℚ
  avg_embed_time_per_text_ms : Option ℚ
  error : Option String
  success : Bool
deriving DecidableEq, Repr

/-- The `results` dict assembled by `main` and handed to `json.dump`. -/
structure Report where
  timestamp : ℚ
  python_version : String
  parsing_results : List BenchmarkRecord
  embedding_results : List EmbeddingRecord
deriving DecidableEq, Repr

/-! ### `benchmark_file_parsing`

External effects are passed in explicitly: `constructParser` covers the
`import`/constructor pair of the selected branch, `readFile` the
`open(...).read()` call, and the returned parser function the
`parser.parse(content, file_path)` call; each is `Except`-valued because
the Python original can raise there.  The two `time.time()` samples are
abstracted to the single duration `elapsedSec` between them. -/

/-- A constructed parser: `parser.parse(content, file_path)`. -/
def Parser : Type := String → String → Except String (List Chunk)

/-- The external world of one measurement attempt: parser construction and
the file read, each allowed to raise. -/
structure ParseWorld where
  constructParser : String → Except String Parser
  readFile : Except String String

/-- `os.path.basename`. -/
def basename (p : String) : String := (p.splitOn "/").reverse.headD p

/-- The parser kinds `benchmark_file_parsing` recognizes before its
`raise ValueError` branch. -/
def knownParsers : List String := ["markdown", "yaml", "vue", "code"]

/-- The body of the `try:` block of `benchmark_file_parsing`: resolve the
parser (unknown name raises `ValueError`), read the file, parse. -/
def parseAttempt (w : ParseWorld) (file_path parser_name : String) :
    Except String (List Chunk) := do
  let parser ←
    if parser_name ∈ knownParsers then w.constructParser parser_name
    else Except.error ("Unknown parser: " ++ parser_name)
  let content ← w.readFile
  parser content file_path

/-- `benchmark_file_parsing(file_path, parser_name)`: every exception is
caught at this boundary and converted to a failure dict, so the function is
total. -/
def benchmark_file_parsing (w : ParseWorld) (elapsedSec : ℚ)
    (file_path parser_name : String) : BenchmarkRecord :=
  match parseAttempt w file_path parser_name with
  | Except.ok chunks =>
    { file := basename file_path
      parser := parser_name
      parse_time_ms := elapsedSec * 1000
      chunk_count := some chunks.length
      total_chunk_size := some (chunks.map (fun c => c.content.length)).sum
      avg_chunk_size := some (if chunks ≠ [] then
        ((chunks.map (fun c => c.content.length)).sum : ℚ) / chunks.length
        else 0)
      error := none
      success := true }
  | Except.error e =>
    { file := basename file_path
      parser := parser_name
      parse_time_ms := elapsedSec * 1000
      chunk_count := none
      total_chunk_size := none
      avg_chunk_size := none
      error := some e
      success := false }

/-! ### `benchmark_embedding` -/

/-- The embedding loop of the `"fake"` branch: one vector per text, in
order. -/
def fakeEmbeddings (texts : List String) : List (List ℚ) :=
  texts.map fakeEmbedding

/-- `benchmark_embedding(texts, provider_name)` together with the
`embeddings` list its `"fake"` branch builds (the Python original computes
the vectors and drops them; returning them makes the determinism claim
statable).  Only an unknown provider can raise, and it is caught. -/
def benchmark_embedding_run (elapsedSec : ℚ) (texts : List String)
    (provider_name : String) : EmbeddingRecord × List (List ℚ) :=
  if provider_name = "fake" then
    let embeddings := fakeEmbeddings texts
    ({ embedding_provider := provider_name
       text_count := texts.length
       embed_time_ms := elapsedSec * 1000
       avg_embed_time_per_text_ms := some (if texts ≠ [] then
         (elapsedSec * 1000) / texts.length else 0)
       error := none
       success := true }, embeddings)
  else
    ({ embedding_provider := provider_name
       text_count := texts.length
       embed_time_ms := elapsedSec * 1000
       avg_embed_time_per_text_ms := none
       error := some ("Unknown embedding provider: " ++ provider_name)
       success := false }, [])

/-- The dict `benchmark_embedding` returns. -/
def benchmark_embedding (elapsedSec : ℚ) (texts : List String)
    (provider_name : String) : EmbeddingRecord :=
  (benchmark_embedding_run elapsedSec texts provider_name).1

/-! ### The driver (`main`)

`main`'s external world: whether the fixture directory and each fixture
file exist, the collaborators of the timed measurement (`world1`) and of
the separate, untimed text-collection pass (`world2`) for each declared
pair, and the sampled durations/timestamp.  The driver threads the
`results["parsing_results"]` list, the `all_texts` list and the printed
lines through a fold over the declared pairs. -/

/-- The external world of one declared `(file, parser)` pair. -/
structure PairWorld where
  fileExists : Bool
  world1 : ParseWorld
  world2 : ParseWorld
  elapsedSec : ℚ

/-- The external world of a whole run. -/
structure RunWorld where
  dirExists : Bool
  pair : String → PairWorld
  embedElapsedSec : ℚ
  timestamp : ℚ
  python_version : String

/-- The declared benchmark plan (`test_files` in `main`). -/
def test_files : List (String × String) :=
  [("sample.md", "markdown"), ("sample.yaml", "yaml"),
   ("sample.vue", "vue"), ("sample.cs", "code")]

/-- The untimed text-collection pass `main` runs after a successful
measurement: re-construct the parser, re-read the file, re-parse, and take
the chunk contents.  Any of the three steps can raise. -/
def collectTexts (w : ParseWorld) (file_path parser_name : String) :
    Except String (List String) := do
  let parser ← w.constructParser parser_name
  let content ← w.readFile
  let chunks ← parser content file_path
  pure (chunks.map (fun c => c.content))

/-- The driver's mutable state: the two growing lists of `results` it
appends to, plus everything printed so far. -/
structure DriverState where
  parsing_results : List BenchmarkRecord
  all_texts : List String
  printed : List String
deriving Repr

/-- One iteration of `main`'s `for filename, parser_name in test_files`
loop. -/
def processPair (rw : RunWorld) (st : DriverState) (tf : String × String) :
    DriverState :=
  let filename := tf.1
  let parser_name := tf.2
  let pw := rw.pair filename
  let file_path := "TestFiles/" ++ filename
  if pw.fileExists then
    let st1 : DriverState :=
      { st with printed := st.printed ++
          ["Benchmarking " ++ filename ++ " with " ++ parser_name ++ " parser..."] }
    let result := benchmark_file_parsing pw.world1 pw.elapsedSec file_path parser_name
    let st2 : DriverState :=
      { st1 with parsing_results := st1.parsing_results ++ [result] }
    if result.success then
      match collectTexts pw.world2 file_path parser_name with
      | Except.ok texts => { st2 with all_texts := st2.all_texts ++ texts }
      | Except.error e =>
        { st2 with printed := st2.printed ++
            ["Error collecting texts for " ++ filename ++ ": " ++ e] }
    else st2
  else
    { st with printed := st.printed ++ ["Test file not found: " ++ file_path] }

/-- The fold over the declared pairs, starting from empty lists. -/
def driverFold (rw : RunWorld) : DriverState :=
  test_files.foldl (processPair rw) ⟨[], [], []⟩

/-- `main`: `None` models the clean early exit when the fixture directory
is missing; otherwise the assembled `results` dict.  The embedding
benchmark only runs under `if all_texts:`. -/
def main_run (rw : RunWorld) : Option Report :=
  if rw.dirExists then
    let st := driverFold rw
    let embedding_results :=
      if st.all_texts ≠ [] then
        [benchmark_embedding rw.embedElapsedSec st.all_texts "fake"]
      else []
    some { timestamp := rw.timestamp
           python_version := rw.python_version
           parsing_results := st.parsing_results
           embedding_results := embedding_results }
  else none

/-! ### JSON serialization (`json.dump(results, f, indent=2)`)

The document is modelled at the AST level; Python dict insertion order
fixes the key order. -/

/-- A JSON value. -/
inductive Json where
  | num : ℚ → Json
  | str : String → Json
  | jbool : Bool → Json
  | arr : List Json → Json
  | obj : List (String × Json) → Json

/-- An optional dict key: present with its encoded value iff the field is
`some`. -/
def optKey {α : Type} (k : String) (f : α → Json) : Option α → List (String × Json)
  | some a => [(k, f a)]
  | none => []

/-- The JSON object for one parsing-result dict, keys in the insertion
order of `benchmark_file_parsing`. -/
def BenchmarkRecord.toJson (r : BenchmarkRecord) : Json :=
  Json.obj
    ([("file", Json.str r.file), ("parser", Json.str r.parser),
      ("parse_time_ms", Json.num r.parse_time_ms)]
     ++ optKey "chunk_count" (fun n => Json.num n) r.chunk_count
     ++ optKey "total_chunk_size" (fun n => Json.num n) r.total_chunk_size
     ++ optKey "avg_chunk_size" (fun q => Json.num q) r.avg_chunk_size
     ++ optKey "error" (fun e => Json.str e) r.error
     ++ [("success", Json.jbool r.success)])

/-- The JSON object for one embedding-result dict, keys in the insertion
order of `benchmark_embedding`. -/
def EmbeddingRecord.toJson (r : EmbeddingRecord) : Json :=
  Json.obj
    ([("embedding_provider", Json.str r.embedding_provider),
      ("text_count", Json.num r.text_count),
      ("embed_time_ms", Json.num r.embed_time_ms)]
     ++ optKey "avg_embed_time_per_text_ms" (fun q => Json.num q)
          r.avg_embed_time_per_text_ms
     ++ optKey "error" (fun e => Json.str e) r.error
     ++ [("success", Json.jbool r.success)])

/-- The JSON object `json.dump` writes for the whole `results` dict. -/
def Report.toJson (r : Report) : Json :=
  Json.obj
    [("timestamp", Json.num r.timestamp),
     ("python_version", Json.str r.python_version),
     ("parsing_results", Json.arr (r.parsing_results.map BenchmarkRecord.toJson)),
     ("embedding_results", Json.arr (r.embedding_results.map EmbeddingRecord.toJson))]

/-- First value bound to a key in an object member list. -/
def lookupKey (kvs : List (String × Json)) (k : String) : Option Json :=
  match kvs with
  | [] => none
  | (k', v) :: rest => if k' = k then some v else lookupKey rest k

/-- Field access on an object; `none` on other values. -/
def Json.getField : Json → String → Option Json
  | Json.obj kvs, k => lookupKey kvs k
  | _, _ => none

/-- The key list of an object, in order. -/
def Json.topKeys : Json → List String
  | Json.obj kvs => kvs.map (fun kv => kv.1)
  | _ => []

/-- Decode a JSON string. -/
def Json.asStr : Json → Option String
  | Json.str s => some s
  | _ => none

/-- Decode a JSON number as the rational it carries. -/
def Json.asNum : Json → Option ℚ
  | Json.num q => some q
  | _ => none

/-- Decode a JSON boolean. -/
def Json.asBool : Json → Option Bool
  | Json.jbool b => some b
  | _ => none

/-- Decode a JSON number that is a nonnegative integer. -/
def Json.asNat : Json → Option ℕ
  | Json.num q => if q.den = 1 ∧ 0 ≤ q.num then some q.num.toNat else none
  | _ => none

/-- Decode a JSON array. -/
def Json.asArr : Json → Option (List Json)
  | Json.arr l => some l
  | _ => none

/-- Decode an optional field: an absent key is `some none`; a present key
must decode. -/
def getOptField {α : Type} (j : Json) (k : String) (f : Json → Option α) :
    Option (Option α) :=
  match j.getField k with
  | none => some none
  | some v => (f v).map some

/-- Decode one parsing-result object. -/
def decodeBenchmarkRecord (j : Json) : Option BenchmarkRecord := do
  let file ← (j.getField "file").bind Json.asStr
  let parser ← (j.getField "parser").bind Json.asStr
  let parse_time_ms ← (j.getField "parse_time_ms").bind Json.asNum
  let chunk_count ← getOptField j "chunk_count" Json.asNat
  let total_chunk_size ← getOptField j "total_chunk_size" Json.asNat
  let avg_chunk_size ← getOptField j "avg_chunk_size" Json.asNum
  let error ← getOptField j "error" Json.asStr
  let success ← (j.getField "success").bind Json.asBool
  pure ⟨file, parser, parse_time_ms, chunk_count, total_chunk_size,
        avg_chunk_size, error, success⟩

/-- Decode one embedding-result object. -/
def decodeEmbeddingRecord (j : Json) : Option EmbeddingRecord := do
  let embedding_provider ← (j.getField "embedding_provider").bind Json.asStr
  let text_count ← (j.getField "text_count").bind Json.asNat
  let embed_time_ms ← (j.getField "embed_time_ms").bind Json.asNum
  let avg ← getOptField j "avg_embed_time_per_text_ms" Json.asNum
  let error ← getOptField j "error" Json.asStr
  let success ← (j.getField "success").bind Json.asBool
  pure ⟨embedding_provider, text_count, embed_time_ms, avg, error, success⟩

/-- Decode the whole report document. -/
def decodeReport (j : Json) : Option Report := do
  let timestamp ← (j.getField "timestamp").bind Json.asNum
  let python_version ← (j.getField "python_version").bind Json.asStr
  let parsing ← (j.getField "parsing_results").bind Json.asArr
  let parsing_results ← parsing.mapM decodeBenchmarkRecord
  let embedding ← (j.getField "embedding_results").bind Json.asArr
  let embedding_results ← embedding.mapM decodeEmbeddingRecord
  pure ⟨timestamp, python_version, parsing_results, embedding_results⟩

/-! ### Concrete worlds used to instantiate the theorems -/

/-- A parser world whose construction, read and parse all succeed, the
parse returning two chunks. -/
def okParseWorld : ParseWorld :=
  { constructParser := fun _ => Except.ok (fun _ _ => Except.ok [⟨"ab"⟩, ⟨"cde"⟩])
    readFile := Except.ok "sample" }

/-- A parser world whose parser constructor raises. -/
def failParseWorld : ParseWorld :=
  { constructParser := fun _ => Except.error "boom"
    readFile := Except.ok "sample" }

/-- A run whose fixture directory exists but in which every declared
fixture file is missing. -/
def emptyRunWorld : RunWorld :=
  { dirExists := true
    pair := fun _ => { fileExists := false, world1 := okParseWorld,
                       world2 := okParseWorld, elapsedSec := 0 }
    embedElapsedSec := 0
    timestamp := 0
    python_version := "3.11" }

/-- The report `emptyRunWorld` produces: metadata only, no records. -/
def emptyReport : Report :=
  { timestamp := 0, python_version := "3.11",
    parsing_results := [], embedding_results := [] }

/-- A run in which every file exists, the timed measurement succeeds, and
the untimed text-collection pass raises. -/
def collectFailWorld : RunWorld :=
  { dirExists := true
    pair := fun _ => { fileExists := true, world1 := okParseWorld,
                       world2 := failParseWorld, elapsedSec := 0 }
    embedElapsedSec := 0
    timestamp := 0
    python_version := "3.11" }

/-! ## Theorems -/

/-- Each 2-hex-character group of the MD5 digest of "hello" parses to a
byte value strictly below 255. -/
theorem hello_pairs_lt :
    ∀ k ∈ List.range 16,
      parseHexPair (hexdigest (md5 (strBytes "hello"))).data (2 * k) < 255 := by
  decide

/-- C2, counterexample: the "fake" vector of "hello" does not have 8
entries — the comprehension runs over `range(0, 32, 2)`, so it covers all
32 hex characters of the digest, not the first 16. -/
theorem C2_counterexample : (fakeEmbedding "hello").length ≠ 8 := by
  decide

/-- C2 (amended): embedding "hello" with provider "fake" splits the MD5
hex digest into 2-hex-character groups over all 32 hex characters,
yielding exactly 16 values, each in [0,1); as a Lean function of the text
alone the derivation is the same on every invocation. -/
theorem C2_amended :
    (fakeEmbedding "hello").length = 16 ∧
      ∀ q ∈ fakeEmbedding "hello", 0 ≤ q ∧ q < 1 := by
  constructor
  · decide
  · intro q hq
    simp only [fakeEmbedding, List.map_map, List.mem_map, List.mem_range,
      Function.comp] at hq
    obtain ⟨k, hk, rfl⟩ := hq
    refine ⟨by positivity, ?_⟩
    rw [div_lt_one (by norm_num)]
    exact_mod_cast hello_pairs_lt k (List.mem_range.mpr hk)


/-- C8: the "fake" embedding loop is deterministic — the vectors depend
only on the ordered text list, not on the sampled timing state, and two
invocations produce identical vectors. -/
theorem C8_deterministic (texts : List String) (e1 e2 : ℚ) :
    (benchmark_embedding_run e1 texts "fake").2 =
      (benchmark_embedding_run e2 texts "fake").2 ∧
    (benchmark_embedding_run e1 texts "fake").2 = texts.map fakeEmbedding := by
  simp [benchmark_embedding_run, fakeEmbeddings]

/-- C7: an empty text list with provider "fake" is a valid input, giving
`text_count = 0`, average 0 and success; and whenever the text list is
nonempty the recorded average equals the recorded elapsed milliseconds
divided by the text count. -/
theorem C7_empty_valid_avg (e : ℚ) (texts : List String) (h : texts ≠ []) :
    ((benchmark_embedding e [] "fake").text_count = 0 ∧
     (benchmark_embedding e [] "fake").avg_embed_time_per_text_ms = some 0 ∧
     (benchmark_embedding e [] "fake").success = true) ∧
    (benchmark_embedding e texts "fake").avg_embed_time_per_text_ms =
      some ((benchmark_embedding e texts "fake").embed_time_ms /
        ((benchmark_embedding e texts "fake").text_count : ℚ)) := by
  refine ⟨⟨rfl, ?_, rfl⟩, ?_⟩
  · simp [benchmark_embedding, benchmark_embedding_run]
  · simp [benchmark_embedding, benchmark_embedding_run, h]

theorem C7_witness :
    (["a"] ≠ ([] : List String)) ∧
    (((benchmark_embedding 1 [] "fake").text_count = 0 ∧
      (benchmark_embedding 1 [] "fake").avg_embed_time_per_text_ms = some 0 ∧
      (benchmark_embedding 1 [] "fake").success = true) ∧
     (benchmark_embedding 1 ["a"] "fake").avg_embed_time_per_text_ms =
       some ((benchmark_embedding 1 ["a"] "fake").embed_time_ms /
         ((benchmark_embedding 1 ["a"] "fake").text_count : ℚ))) :=
  ⟨by decide, C7_empty_valid_avg 1 ["a"] (by decide)⟩

/-- C6: every successful parsing record carries chunk count, total size
and average size, the average being total/count when the count is positive
and 0 when it is zero — the division is guarded. -/
theorem C6_avg_chunk_size (w : ParseWorld) (e : ℚ) (path pname : String)
    (h : (benchmark_file_parsing w e path pname).success = true) :
    ∃ cnt tot avgq,
      (benchmark_file_parsing w e path pname).chunk_count = some cnt ∧
      (benchmark_file_parsing w e path pname).total_chunk_size = some tot ∧
      (benchmark_file_parsing w e path pname).avg_chunk_size = some avgq ∧
      (0 < cnt → avgq = (tot : ℚ) / (cnt : ℚ)) ∧
      (cnt = 0 → avgq = 0) := by
  unfold benchmark_file_parsing at h ⊢
  cases hat : parseAttempt w path pname with
  | error err => rw [hat] at h; simp at h
  | ok chunks =>
    refine ⟨chunks.length, (chunks.map (fun c => c.content.length)).sum, _,
      rfl, rfl, rfl, ?_, ?_⟩
    · intro hpos
      rw [if_pos (List.length_pos.mp hpos), Nat.cast_list_sum, List.map_map]
      rfl
    · intro h0
      rw [if_neg]
      simp [List.length_eq_zero.mp h0]

theorem C6_witness :
    (benchmark_file_parsing okParseWorld 1 "TestFiles/sample.md" "markdown").success = true ∧
    ∃ cnt tot avgq,
      (benchmark_file_parsing okParseWorld 1 "TestFiles/sample.md" "markdown").chunk_count = some cnt ∧
      (benchmark_file_parsing okParseWorld 1 "TestFiles/sample.md" "markdown").total_chunk_size = some tot ∧
      (benchmark_file_parsing okParseWorld 1 "TestFiles/sample.md" "markdown").avg_chunk_size = some avgq ∧
      (0 < cnt → avgq = (tot : ℚ) / (cnt : ℚ)) ∧
      (cnt = 0 → avgq = 0) :=
  ⟨rfl, C6_avg_chunk_size okParseWorld 1 "TestFiles/sample.md" "markdown" rfl⟩


/-- C1: an unknown parser kind makes `benchmark_file_parsing` return a
failure record with a non-empty error text and the recorded elapsed time,
and any provider other than "fake" makes `benchmark_embedding` return the
same kind of failure record; both functions are total, so neither raises
to the caller. -/
theorem C1_unsupported (w : ParseWorld) (e : ℚ) (path pname : String)
    (hp : pname ∉ knownParsers)
    (e2 : ℚ) (texts : List String) (prov : String) (hv : prov ≠ "fake") :
    ((benchmark_file_parsing w e path pname).success = false ∧
     (benchmark_file_parsing w e path pname).error =
       some ("Unknown parser: " ++ pname) ∧
     ("Unknown parser: " ++ pname).length ≠ 0 ∧
     (benchmark_file_parsing w e path pname).parse_time_ms = e * 1000) ∧
    ((benchmark_embedding e2 texts prov).success = false ∧
     (benchmark_embedding e2 texts prov).error =
       some ("Unknown embedding provider: " ++ prov) ∧
     ("Unknown embedding provider: " ++ prov).length ≠ 0 ∧
     (benchmark_embedding e2 texts prov).embed_time_ms = e2 * 1000) := by
  constructor
  · have hatt : parseAttempt w path pname =
        Except.error ("Unknown parser: " ++ pname) := by
      unfold parseAttempt
      rw [if_neg hp]
      rfl
    refine ⟨?_, ?_, ?_, ?_⟩
    · simp [benchmark_file_parsing, hatt]
    · simp [benchmark_file_parsing, hatt]
    · have hne : ("Unknown parser: ").length ≠ 0 := by decide
      rw [String.length_append]
      omega
    · simp [benchmark_file_parsing, hatt]
  · refine ⟨?_, ?_, ?_, ?_⟩
    · simp [benchmark_embedding, benchmark_embedding_run, hv]
    · simp [benchmark_embedding, benchmark_embedding_run, hv]
    · have hne : ("Unknown embedding provider: ").length ≠ 0 := by decide
      rw [String.length_append]
      omega
    · simp [benchmark_embedding, benchmark_embedding_run, hv]

theorem C1_witness :
    ("bogus" ∉ knownParsers) ∧ ("openai" ≠ "fake") ∧
    (((benchmark_file_parsing okParseWorld 1 "TestFiles/sample.md" "bogus").success = false ∧
      (benchmark_file_parsing okParseWorld 1 "TestFiles/sample.md" "bogus").error =
        some ("Unknown parser: " ++ "bogus") ∧
      ("Unknown parser: " ++ "bogus").length ≠ 0 ∧
      (benchmark_file_parsing okParseWorld 1 "TestFiles/sample.md" "bogus").parse_time_ms = 1 * 1000) ∧
     ((benchmark_embedding 2 ["x"] "openai").success = false ∧
      (benchmark_embedding 2 ["x"] "openai").error =
        some ("Unknown embedding provider: " ++ "openai") ∧
      ("Unknown embedding provider: " ++ "openai").length ≠ 0 ∧
      (benchmark_embedding 2 ["x"] "openai").embed_time_ms = 2 * 1000)) :=
  ⟨by decide, by decide,
   C1_unsupported okParseWorld 1 "TestFiles/sample.md" "bogus" (by decide)
     2 ["x"] "openai" (by decide)⟩

/-- C5, counterexample: a failure record of `benchmark_embedding` still
carries the numeric `text_count` field (here 1), so a failed measurement
is not limited to elapsed time among its numeric fields. -/
theorem C5_counterexample :
    (benchmark_embedding 1 ["a"] "openai").success = false ∧
    (benchmark_embedding 1 ["a"] "openai").toJson.getField "text_count" =
      some (Json.num ((1 : ℕ) : ℚ)) := by
  exact ⟨rfl, rfl⟩

/-- C5 (amended): every parsing failure record records the elapsed time
and omits all chunk fields; every embedding failure record records the
elapsed time and the input text count and omits the average field. -/
theorem C5_failure_fields (w : ParseWorld) (e : ℚ) (path pname : String)
    (h1 : (benchmark_file_parsing w e path pname).success = false)
    (e2 : ℚ) (texts : List String) (prov : String)
    (h2 : (benchmark_embedding e2 texts prov).success = false) :
    ((benchmark_file_parsing w e path pname).parse_time_ms = e * 1000 ∧
     (benchmark_file_parsing w e path pname).chunk_count = none ∧
     (benchmark_file_parsing w e path pname).total_chunk_size = none ∧
     (benchmark_file_parsing w e path pname).avg_chunk_size = none ∧
     (benchmark_file_parsing w e path pname).error.isSome = true) ∧
    ((benchmark_embedding e2 texts prov).embed_time_ms = e2 * 1000 ∧
     (benchmark_embedding e2 texts prov).avg_embed_time_per_text_ms = none ∧
     (benchmark_embedding e2 texts prov).text_count = texts.length ∧
     (benchmark_embedding e2 texts prov).error.isSome = true) := by
  constructor
  · unfold benchmark_file_parsing at h1 ⊢
    cases hat : parseAttempt w path pname with
    | ok chunks => rw [hat] at h1; simp at h1
    | error err => exact ⟨rfl, rfl, rfl, rfl, rfl⟩
  · by_cases hf : prov = "fake"
    · subst hf
      simp [benchmark_embedding, benchmark_embedding_run] at h2
    · refine ⟨?_, ?_, ?_, ?_⟩ <;>
        simp [benchmark_embedding, benchmark_embedding_run, hf]

theorem C5_witness :
    ((benchmark_file_parsing okParseWorld 1 "TestFiles/sample.md" "bogus").success = false) ∧
    ((benchmark_embedding 2 ["x", "y"] "openai").success = false) ∧
    (((benchmark_file_parsing okParseWorld 1 "TestFiles/sample.md" "bogus").parse_time_ms = 1 * 1000 ∧
      (benchmark_file_parsing okParseWorld 1 "TestFiles/sample.md" "bogus").chunk_count = none ∧
      (benchmark_file_parsing okParseWorld 1 "TestFiles/sample.md" "bogus").total_chunk_size = none ∧
      (benchmark_file_parsing okParseWorld 1 "TestFiles/sample.md" "bogus").avg_chunk_size = none ∧
      (benchmark_file_parsing okParseWorld 1 "TestFiles/sample.md" "bogus").error.isSome = true) ∧
     ((benchmark_embedding 2 ["x", "y"] "openai").embed_time_ms = 2 * 1000 ∧
      (benchmark_embedding 2 ["x", "y"] "openai").avg_embed_time_per_text_ms = none ∧
      (benchmark_embedding 2 ["x", "y"] "openai").text_count = ["x", "y"].length ∧
      (benchmark_embedding 2 ["x", "y"] "openai").error.isSome = true)) :=
  ⟨rfl, rfl,
   C5_failure_fields okParseWorld 1 "TestFiles/sample.md" "bogus" rfl
     2 ["x", "y"] "openai" rfl⟩


/-- One loop iteration appends exactly one parsing record when the file
exists and none when it is missing, whatever the inner branches do. -/
theorem processPair_parsing (rw : RunWorld) (st : DriverState) (tf : String × String) :
    (processPair rw st tf).parsing_results =
      if (rw.pair tf.1).fileExists then
        st.parsing_results ++
          [benchmark_file_parsing (rw.pair tf.1).world1 (rw.pair tf.1).elapsedSec
            ("TestFiles/" ++ tf.1) tf.2]
      else st.parsing_results := by
  unfold processPair
  by_cases hfe : (rw.pair tf.1).fileExists = true
  · simp only [hfe, if_true]
    split
    · split <;> rfl
    · rfl
  · simp [hfe]

/-- Over any pair list, the fold appends exactly the records of the pairs
whose files exist, in declared order. -/
theorem foldl_parsing (rw : RunWorld) :
    ∀ (pairs : List (String × String)) (st : DriverState),
      (pairs.foldl (processPair rw) st).parsing_results =
        st.parsing_results ++
          (pairs.filter (fun tf => (rw.pair tf.1).fileExists)).map
            (fun tf => benchmark_file_parsing (rw.pair tf.1).world1
              (rw.pair tf.1).elapsedSec ("TestFiles/" ++ tf.1) tf.2) := by
  intro pairs
  induction pairs with
  | nil => intro st; simp
  | cons hd tl ih =>
    intro st
    rw [List.foldl_cons, ih, processPair_parsing, List.filter_cons]
    by_cases hfe : (rw.pair hd.1).fileExists = true <;> simp [hfe]

/-- C3 (amended): whenever the fixture directory exists, the driver
appends one parsing record per declared pair whose fixture file exists (in
declared order, none for missing files), and appends one embedding record
iff at least one chunk text was collected, none otherwise. -/
theorem C3_amended (rw : RunWorld) (r : Report) (h : main_run rw = some r) :
    r.parsing_results =
      (test_files.filter (fun tf => (rw.pair tf.1).fileExists)).map
        (fun tf => benchmark_file_parsing (rw.pair tf.1).world1
          (rw.pair tf.1).elapsedSec ("TestFiles/" ++ tf.1) tf.2) ∧
    r.embedding_results =
      (if (driverFold rw).all_texts ≠ [] then
        [benchmark_embedding rw.embedElapsedSec (driverFold rw).all_texts "fake"]
       else []) := by
  unfold main_run at h
  by_cases hd : rw.dirExists = true
  · rw [if_pos hd] at h
    injection h with h
    subst h
    refine ⟨?_, rfl⟩
    show (driverFold rw).parsing_results = _
    unfold driverFold
    rw [foldl_parsing]
    rfl
  · rw [if_neg hd] at h
    exact absurd h (by simp)

theorem C3_witness :
    main_run emptyRunWorld = some emptyReport ∧
    (emptyReport.parsing_results =
      (test_files.filter (fun tf => (emptyRunWorld.pair tf.1).fileExists)).map
        (fun tf => benchmark_file_parsing (emptyRunWorld.pair tf.1).world1
          (emptyRunWorld.pair tf.1).elapsedSec ("TestFiles/" ++ tf.1) tf.2) ∧
     emptyReport.embedding_results =
      (if (driverFold emptyRunWorld).all_texts ≠ [] then
        [benchmark_embedding emptyRunWorld.embedElapsedSec
          (driverFold emptyRunWorld).all_texts "fake"]
       else [])) :=
  ⟨rfl, C3_amended emptyRunWorld emptyReport rfl⟩

/-- C3, counterexample: in a run whose fixture directory exists but whose
fixture files are all missing, no parsing record and no embedding record
is appended, against the claimed one record per declared pair and exactly
one embedding record. -/
theorem C3_counterexample :
    (main_run emptyRunWorld).map
      (fun r => (r.parsing_results.length, r.embedding_results.length)) =
        some (0, 0) ∧
    ¬((0, 0) = (test_files.length, 1)) :=
  ⟨rfl, by decide⟩

/-- C10: when the timed measurement succeeds but the separate, untimed
text-collection parse raises, the loop iteration keeps the already
appended success record unchanged, adds nothing to `all_texts`, and only
prints the collection error. -/
theorem C10_collect_failure (rw : RunWorld) (st : DriverState)
    (filename parser_name err : String)
    (hfe : (rw.pair filename).fileExists = true)
    (hsu : (benchmark_file_parsing (rw.pair filename).world1
      (rw.pair filename).elapsedSec ("TestFiles/" ++ filename) parser_name).success
        = true)
    (hco : collectTexts (rw.pair filename).world2 ("TestFiles/" ++ filename)
      parser_name = Except.error err) :
    processPair rw st (filename, parser_name) =
      { parsing_results := st.parsing_results ++
          [benchmark_file_parsing (rw.pair filename).world1
            (rw.pair filename).elapsedSec ("TestFiles/" ++ filename) parser_name]
        all_texts := st.all_texts
        printed := st.printed ++
          ["Benchmarking " ++ filename ++ " with " ++ parser_name ++ " parser..."] ++
          ["Error collecting texts for " ++ filename ++ ": " ++ err] } := by
  unfold processPair
  simp only [hfe, if_true, hsu, hco]

theorem C10_witness :
    ((collectFailWorld.pair "sample.md").fileExists = true) ∧
    ((benchmark_file_parsing (collectFailWorld.pair "sample.md").world1
      (collectFailWorld.pair "sample.md").elapsedSec ("TestFiles/" ++ "sample.md")
      "markdown").success = true) ∧
    (collectTexts (collectFailWorld.pair "sample.md").world2
      ("TestFiles/" ++ "sample.md") "markdown" = Except.error "boom") ∧
    (processPair collectFailWorld ⟨[], [], []⟩ ("sample.md", "markdown") =
      { parsing_results := ([] : List BenchmarkRecord) ++
          [benchmark_file_parsing (collectFailWorld.pair "sample.md").world1
            (collectFailWorld.pair "sample.md").elapsedSec
            ("TestFiles/" ++ "sample.md") "markdown"]
        all_texts := ([] : List String)
        printed := ([] : List String) ++
          ["Benchmarking " ++ "sample.md" ++ " with " ++ "markdown" ++ " parser..."] ++
          ["Error collecting texts for " ++ "sample.md" ++ ": " ++ "boom"] }) :=
  ⟨rfl, rfl, rfl,
   C10_collect_failure collectFailWorld ⟨[], [], []⟩ "sample.md" "markdown" "boom"
     rfl rfl rfl⟩


/-- C4, counterexample: the written report's version field is named
`python_version`, not `environment_version`. -/
theorem C4_counterexample :
    (main_run emptyRunWorld).map (fun r => (Report.toJson r).topKeys) =
      some ["timestamp", "python_version", "parsing_results", "embedding_results"] ∧
    ¬(["timestamp", "python_version", "parsing_results", "embedding_results"] =
      ["timestamp", "environment_version", "parsing_results", "embedding_results"]) :=
  ⟨rfl, by decide⟩

/-- C4 (amended): every report the run writes is a JSON object whose
top-level fields are exactly a numeric `timestamp`, a text field named
`python_version`, the array `parsing_results` of benchmark records and the
array `embedding_results` of embedding records, in that order. -/
theorem C4_report_shape (rw : RunWorld) (r : Report) (_h : main_run rw = some r) :
    (Report.toJson r).topKeys =
      ["timestamp", "python_version", "parsing_results", "embedding_results"] ∧
    (Report.toJson r).getField "timestamp" = some (Json.num r.timestamp) ∧
    (Report.toJson r).getField "python_version" = some (Json.str r.python_version) ∧
    (Report.toJson r).getField "parsing_results" =
      some (Json.arr (r.parsing_results.map BenchmarkRecord.toJson)) ∧
    (Report.toJson r).getField "embedding_results" =
      some (Json.arr (r.embedding_results.map EmbeddingRecord.toJson)) :=
  ⟨rfl, rfl, rfl, rfl, rfl⟩

theorem C4_witness :
    main_run emptyRunWorld = some emptyReport ∧
    ((Report.toJson emptyReport).topKeys =
      ["timestamp", "python_version", "parsing_results", "embedding_results"] ∧
     (Report.toJson emptyReport).getField "timestamp" =
       some (Json.num emptyReport.timestamp) ∧
     (Report.toJson emptyReport).getField "python_version" =
       some (Json.str emptyReport.python_version) ∧
     (Report.toJson emptyReport).getField "parsing_results" =
       some (Json.arr (emptyReport.parsing_results.map BenchmarkRecord.toJson)) ∧
     (Report.toJson emptyReport).getField "embedding_results" =
       some (Json.arr (emptyReport.embedding_results.map EmbeddingRecord.toJson))) :=
  ⟨rfl, C4_report_shape emptyRunWorld emptyReport rfl⟩

/-- Decoding inverts encoding on every parsing record. -/
theorem decode_encode_benchmark (r : BenchmarkRecord) :
    decodeBenchmarkRecord (BenchmarkRecord.toJson r) = some r := by
  rcases r with ⟨file, parser, pt, cc, tcs, acs, err, succ⟩
  cases cc <;> cases tcs <;> cases acs <;> cases err <;>
    simp [decodeBenchmarkRecord, BenchmarkRecord.toJson, optKey, Json.getField,
      lookupKey, getOptField, Json.asStr, Json.asNum, Json.asNat, Json.asBool]

/-- Decoding inverts encoding on every embedding record. -/
theorem decode_encode_embedding (r : EmbeddingRecord) :
    decodeEmbeddingRecord (EmbeddingRecord.toJson r) = some r := by
  rcases r with ⟨prov, tc, et, avg, err, succ⟩
  cases avg <;> cases err <;>
    simp [decodeEmbeddingRecord, EmbeddingRecord.toJson, optKey, Json.getField,
      lookupKey, getOptField, Json.asStr, Json.asNum, Json.asNat, Json.asBool]

/-- A list of encoded values decodes back to the originals, prepended to
the reversed accumulator of `List.mapM.loop`. -/
theorem mapM_loop_decode_encode {α : Type} (enc : α → Json) (dec : Json → Option α)
    (h : ∀ a, dec (enc a) = some a) :
    ∀ (l acc : List α),
      List.mapM.loop dec (l.map enc) acc = some (acc.reverse ++ l) := by
  intro l
  induction l with
  | nil => intro acc; simp [List.mapM.loop]
  | cons a t ih => intro acc; simp [List.mapM.loop, h, ih]

/-- C9: decoding the JSON document written for a report reproduces the
report — the same records, field names and field values. -/
theorem C9_roundtrip (r : Report) : decodeReport (Report.toJson r) = some r := by
  rcases r with ⟨ts, pv, prs, ers⟩
  simp [decodeReport, Report.toJson, Json.getField, lookupKey, Json.asNum,
    Json.asStr, Json.asArr,
    mapM_loop_decode_encode BenchmarkRecord.toJson decodeBenchmarkRecord
      decode_encode_benchmark,
    mapM_loop_decode_encode EmbeddingRecord.toJson decodeEmbeddingRecord
      decode_encode_embedding]

end ChunkHoundBench
